import Mathlib

/-!
Shallow embedding of `pkg/build/apiserver/registry/buildconfiginstantiate/rest.go`
(openshift/origin): the binary build instantiate flow.

Modelling conventions:
* Durations are natural numbers of milliseconds (`time.Second` = 1000,
  `5 * time.Minute` = 300000).  `wait.Poll(interval, timeout, cond)` is a
  fuel-bounded loop whose fuel is `timeout / interval`; each condition
  invocation is assumed to consume one interval of wall-clock time, and the
  outcome of each invocation of the external collaborator is supplied by an
  environment list (one entry per tick).
* Kubernetes `errors` values (`StatusError`, `wait.ErrWaitTimeout`) are an
  inductive `KError`; `errors.NewInternalError` wraps its cause.
* `BuildPhase` is, as in the Go source, a string type (`type BuildPhase
  string`), so unknown phases are representable.
* External collaborators (`BeforeCreate`, `InstantiateInternal`,
  `WaitForRunningBuild`, `RESTClientFor`, `NewSPDYExecutor`, `exec.Stream`,
  `UpdateBuild`, `GetBuild`, `Scheme.Convert`) are oracles: their outcomes are
  fields of the handler environment, consumed in exactly the order and under
  exactly the conditions of the source.
* External named constants whose defining packages are outside this file's
  repository slice (phase strings, container names, the manual-trigger
  message, the no-logs message) are fixed string definitions.
-/

deriving instance DecidableEq for Except

namespace BuildConfigInstantiate

/-- Source `buildapi.SourceControlUser` (name and email of an author/committer). -/
structure SourceControlUser where
  name : String
  email : String
deriving Repr, DecidableEq

/-- Source `buildapi.GitSourceRevision`. -/
structure GitSourceRevision where
  committer : SourceControlUser
  author : SourceControlUser
  message : String
  commit : String
deriving Repr, DecidableEq

/-- Source `buildapi.SourceRevision` (the `Git` field). -/
structure SourceRevision where
  git : Option GitSourceRevision
deriving Repr, DecidableEq

/-- Source `buildapi.BinaryBuildSource` (the `AsFile` field). -/
structure BinaryBuildSource where
  asFile : String
deriving Repr, DecidableEq

/-- Source `buildapi.BuildTriggerCause`; only the `Message` field is set on the
paths embedded here, the remaining fields stay at their zero values. -/
structure BuildTriggerCause where
  message : String
deriving Repr, DecidableEq

/-- Source `buildapi.BuildRequest`: the input to `InstantiateInternal`.  A Go nil
slice for `TriggeredBy` is `none`. -/
structure BuildRequest where
  name : String
  revision : Option SourceRevision
  binary : Option BinaryBuildSource
  triggeredBy : Option (List BuildTriggerCause)
deriving Repr, DecidableEq

/-- Source `buildapi.BinaryBuildRequestOptions`. -/
structure BinaryBuildRequestOptions where
  name : String
  asFile : String
  commit : String
  message : String
  authorName : String
  authorEmail : String
  committerName : String
  committerEmail : String
deriving Repr, DecidableEq

/-- Source `BuildStatus`: phase (a string in the source), reason, message and the
cancellation flag. -/
structure BuildStatus where
  phase : String
  reason : String
  message : String
  cancelled : Bool
deriving Repr, DecidableEq

/-- Source `BuildStrategy`: only the presence of `CustomStrategy` matters here. -/
structure BuildStrategy where
  customStrategy : Bool
deriving Repr, DecidableEq

/-- A build resource snapshot. -/
structure Build where
  name : String
  namespaceName : String
  resourceVersion : String
  strategy : BuildStrategy
  status : BuildStatus
deriving Repr, DecidableEq

/-- Reasons carried by a `StatusError` (`metav1.StatusReason`). -/
inductive ErrReason where
  | badRequest
  | timeout
  | notFound
  | conflict
  | internalError
  | other
deriving Repr, DecidableEq

/-- Kubernetes error values as observed by this flow: an `APIStatus` error
with reason, `Status().Kind` and message; `errors.NewInternalError` wrapping
a cause; or `wait.ErrWaitTimeout`. -/
inductive KError where
  | api (reason : ErrReason) (statusKind : String) (msg : String) : KError
  | internal (cause : KError) : KError
  | pollTimeout : KError
deriving Repr, DecidableEq

/-- Source `errors.NewBadRequest`. -/
def newBadRequest (msg : String) : KError := .api .badRequest "" msg

/-- Source `errors.NewTimeoutError` (the retry-after argument is 0 and unused). -/
def newTimeoutError (msg : String) : KError := .api .timeout "" msg

/-- Source `errors.IsNotFound`. -/
def isNotFound : KError → Bool
  | .api .notFound _ _ => true
  | _ => false

/-- Source `errors.IsConflict`. -/
def isConflict : KError → Bool
  | .api .conflict _ _ => true
  | _ => false

/-- Source `err.(errors.APIStatus).Status().Kind`. -/
def statusKind : KError → String
  | .api _ k _ => k
  | _ => ""

/-- Source `%v` rendering of an error (only the message matters for the claims). -/
def errString : KError → String
  | .api _ _ m => m
  | .internal e => "Internal error occurred: " ++ errString e
  | .pollTimeout => "timed out waiting for the condition"

/-- Source `%s` rendering of a `time.Duration` held in milliseconds. -/
def durationString (ms : Nat) : String := toString ms ++ "ms"

/-! Constants of the source file and of the external packages it names. -/

/-- Source `time.Second`, the interval of the launch `wait.Poll`, in ms. -/
def launchPollInterval : Nat := 1000

/-- Source `cancelPollInterval = 500 * time.Millisecond`. -/
def cancelPollInterval : Nat := 500

/-- Source `cancelPollDuration = 30 * time.Second`, in ms. -/
def cancelPollDuration : Nat := 30000

/-- Number of poll ticks available to the cancellation loop. -/
def maxCancelPolls : Nat := cancelPollDuration / cancelPollInterval

/-- Source `Timeout: 5 * time.Minute` set by `NewBinaryStorage`, in ms. -/
def defaultTimeout : Nat := 300000

/-- Source `buildv1.BuildPhaseNew`. -/
def buildPhaseNew : String := "New"

/-- Source `buildv1.BuildPhasePending`. -/
def buildPhasePending : String := "Pending"

/-- Source `buildv1.BuildPhaseRunning`. -/
def buildPhaseRunning : String := "Running"

/-- Source `buildv1.BuildPhaseComplete`. -/
def buildPhaseComplete : String := "Complete"

/-- Source `buildv1.BuildPhaseFailed`. -/
def buildPhaseFailed : String := "Failed"

/-- Source `buildv1.BuildPhaseError`. -/
def buildPhaseError : String := "Error"

/-- Source `buildv1.BuildPhaseCancelled`. -/
def buildPhaseCancelled : String := "Cancelled"

/-- Source `buildstrategy.GitCloneContainer` (external constant). -/
def gitCloneContainer : String := "git-clone"

/-- Source `buildstrategy.CustomBuild` (external constant). -/
def customBuild : String := "custom-build"

/-- Source `buildapi.BuildTriggerCauseManualMsg` (external constant). -/
def buildTriggerCauseManualMsg : String := "Manually triggered"

/-- Source `buildutil.NoBuildLogsMessage` (external constant). -/
def noBuildLogsMessage : String := "No logs are available."

/-- Source `buildinternalhelpers.GetBuildPodName` (external helper): the pod name
derived deterministically from the build's name. -/
def getBuildPodName (b : Build) : String := b.name ++ "-build"

/-! The non-binary `InstantiateREST.Create` path. -/

/-- The `TriggeredBy` defaulting of `InstantiateREST.Create`: a nil trigger
cause list is replaced by a single manual-trigger cause. -/
def defaultTriggeredBy (request : BuildRequest) : BuildRequest :=
  match request.triggeredBy with
  | none => { request with triggeredBy := some [{ message := buildTriggerCauseManualMsg }] }
  | some _ => request

/-- Source `InstantiateREST.Create` up to the call of `InstantiateInternal`:
`rest.BeforeCreate` and `createValidation` outcomes are oracles; on success
the (possibly defaulted) request handed to the generator is returned. -/
def instantiateCreate (beforeCreateErr : Option KError)
    (createValidationErr : Option KError) (request : BuildRequest) :
    Except KError BuildRequest :=
  match beforeCreateErr with
  | some e => .error e
  | none =>
    match createValidationErr with
    | some e => .error e
    | none => .ok (defaultTriggeredBy request)

/-! The binary request construction (`handle`, lines 175-195). -/

/-- The `BuildRequest` built by `binaryInstantiateHandler.handle` from the
handler name and the `BinaryBuildRequestOptions`: the revision is attached
exactly when `len(options.Commit) > 0`, the binary source always, and
`TriggeredBy` is never set (stays nil). -/
def binaryBuildRequest (name : String) (options : BinaryBuildRequestOptions) :
    BuildRequest :=
  { name := name
    revision :=
      if 0 < options.commit.length then
        some { git := some {
          committer := { name := options.committerName, email := options.committerEmail }
          author := { name := options.authorName, email := options.authorEmail }
          message := options.message
          commit := options.commit } }
      else none
    binary := some { asFile := options.asFile }
    triggeredBy := none }

/-! The launch loop (`wait.Poll(time.Second, h.r.Timeout, ...)`). -/

/-- One generator invocation outcome: `InstantiateInternal` returned a build
or an error. -/
inductive LaunchTick where
  | ok (b : Build) : LaunchTick
  | err (e : KError) : LaunchTick
deriving Repr, DecidableEq

/-- Outcome of the launch poll: a build (with the number of generator
invocations consumed), a fatal error, or `wait.ErrWaitTimeout`. -/
inductive LaunchOutcome where
  | success (b : Build) (attempts : Nat) : LaunchOutcome
  | failure (e : KError) : LaunchOutcome
  | timeout : LaunchOutcome
deriving Repr, DecidableEq

/-- The retry test of the launch poll body: `errors.IsNotFound(err)` and
`err.(errors.APIStatus).Status().Kind == "imagestreamtags"`. -/
def retryableLaunchError (e : KError) : Bool :=
  isNotFound e && statusKind e == "imagestreamtags"

/-- Increment the attempt count of a successful outcome. -/
def bumpAttempt : LaunchOutcome → LaunchOutcome
  | .success b k => .success b (k + 1)
  | o => o

/-- The launch `wait.Poll` loop: each tick invokes the generator; an
imagestreamtags not-found error is absorbed and the loop continues, any
other error stops the loop, success stops the loop with the build; fuel
exhaustion is `wait.ErrWaitTimeout`. -/
def launchLoop : Nat → List LaunchTick → LaunchOutcome
  | 0, _ => .timeout
  | _ + 1, [] => .timeout
  | _ + 1, .ok b :: _ => .success b 1
  | fuel + 1, .err e :: rest =>
    if retryableLaunchError e then bumpAttempt (launchLoop fuel rest)
    else .failure e

/-! The cancellation routine (`cancelBuild`, lines 295-314). -/

/-- Source `versionedBuild.Status.Cancelled = true`. -/
def setCancelled (b : Build) : Build :=
  { b with status := { b.status with cancelled := true } }

/-- One tick of the cancellation poll environment: the `UpdateBuild` outcome
(`none` is success) and the `GetBuild` outcome consulted only on conflict. -/
structure CancelTick where
  updateErr : Option KError
  getResult : Except KError Build
deriving Repr, DecidableEq

/-- Environment of one `cancelBuild` run: whether `Scheme.Convert` fails,
the outcome of the first (unchecked) `UpdateBuild`, and the per-tick
outcomes of the poll loop. -/
structure CancelEnv where
  convertErr : Bool
  firstUpdateErr : Option KError
  ticks : List CancelTick
deriving Repr, DecidableEq

/-- Observable store operations performed by `cancelBuild`: an `UpdateBuild`
carrying the submitted build, or a `GetBuild`. -/
inductive CancelOp where
  | update (b : Build) : CancelOp
  | get : CancelOp
deriving Repr, DecidableEq

/-- The `wait.Poll(cancelPollInterval, cancelPollDuration, ...)` body of
`cancelBuild`: set the cancellation flag, update; on a conflict re-fetch
(continuing with the fetched build if the fetch succeeds, stopping if it
fails); on any other outcome stop. -/
def cancelPollLoop : Build → Nat → List CancelTick → List CancelOp
  | _, 0, _ => []
  | _, _ + 1, [] => []
  | vb, fuel + 1, t :: rest =>
    match t.updateErr with
    | none => [CancelOp.update (setCancelled vb)]
    | some e =>
      if isConflict e then
        match t.getResult with
        | .ok b2 => CancelOp.update (setCancelled vb) :: CancelOp.get :: cancelPollLoop b2 fuel rest
        | .error _ => [CancelOp.update (setCancelled vb), CancelOp.get]
      else [CancelOp.update (setCancelled vb)]

/-- Source `binaryInstantiateHandler.cancelBuild`: convert (giving up silently on a
conversion error), set the cancellation flag, submit one update whose result
is ignored, then run the bounded conflict-retry poll.  It returns only the
trace of store operations: no error of any inner step escapes. -/
def cancelBuild (build : Build) (env : CancelEnv) : List CancelOp :=
  if env.convertErr then []
  else
    let vb := setCancelled build
    CancelOp.update vb :: cancelPollLoop vb maxCancelPolls env.ticks

/-! The handler flow (`handle`, lines 168-291). -/

/-- Outcome of `buildwait.WaitForRunningBuild` as consumed by the switch in
`handle`: the sentinel deleted error, another error, a timeout
(`ok = false`, no error), or an observed latest snapshot (`ok = true`). -/
inductive WaitOutcome where
  | deleted : WaitOutcome
  | failed (e : KError) : WaitOutcome
  | timedOut : WaitOutcome
  | observed (latest : Build) : WaitOutcome
deriving Repr, DecidableEq

/-- Environment of one `handle` run: the oracle outcomes of every external
call, in source order. -/
structure HandlerEnv where
  validateErr : Option KError
  launchTicks : List LaunchTick
  wait : WaitOutcome
  restClientErr : Option KError
  executorErr : Option KError
  streamErr : Option KError
  cancelEnv : CancelEnv
deriving Repr, DecidableEq

/-- Observable outcome of one `handle` run.  `uploadAttempted` records that
the flow passed the phase gate into the attach-and-stream stage;
`guardArmed` that the deferred cancellation closure was registered (it is,
exactly when the launch poll returned a build); `cancelIssued` that the
deferred closure actually called `cancelBuild` (guard registered and the
`cancel` flag still true at exit); `cancelOps` the store operations that
call performed; `waitBudget` the duration handed to `WaitForRunningBuild`. -/
structure HandleOutput where
  result : Except KError Build
  request : BuildRequest
  uploadAttempted : Bool
  guardArmed : Bool
  cancelIssued : Bool
  cancelOps : List CancelOp
  container : Option String
  waitBudget : Option Nat
deriving Repr, DecidableEq

/-- Build the output of an exit taken after the deferred cancellation guard
was registered: `cancelFlag` is the value of the `cancel` variable at that
exit, and the deferred closure runs `cancelBuild` exactly when it is true. -/
def finishArmed (request : BuildRequest) (build : Build) (cenv : CancelEnv)
    (remaining : Nat) (result : Except KError Build) (upload : Bool)
    (cancelFlag : Bool) (container : Option String) : HandleOutput :=
  { result := result
    request := request
    uploadAttempted := upload
    guardArmed := true
    cancelIssued := cancelFlag
    cancelOps := if cancelFlag then cancelBuild build cenv else []
    container := container
    waitBudget := some remaining }

/-- Build the output of an exit taken before the guard was registered
(validation failure or launch poll failure/timeout). -/
def finishUnarmed (request : BuildRequest) (result : Except KError Build) :
    HandleOutput :=
  { result := result
    request := request
    uploadAttempted := false
    guardArmed := false
    cancelIssued := false
    cancelOps := []
    container := none
    waitBudget := none }

/-- The portion of `handle` from the `WaitForRunningBuild` call to the end
(lines 229-291): the phase switch, container selection, client and executor
construction, and the stream, threading the `cancel` flag exactly as the
source does.  `build` is the launch snapshot, which the source uses for the
failure reason/message, the pod name, the container selection and the
cancellation, while `latest` drives the phase switch and is the success
result. -/
def afterLaunch (timeout : Nat) (request : BuildRequest) (build : Build)
    (remaining : Nat) (env : HandlerEnv) : HandleOutput :=
  match env.wait with
  | .deleted =>
    finishArmed request build env.cancelEnv remaining
      (.error (newBadRequest ("build " ++ build.name ++ " was deleted before it started: " ++ noBuildLogsMessage)))
      false true none
  | .failed e =>
    finishArmed request build env.cancelEnv remaining
      (.error (newBadRequest ("unable to wait for build " ++ build.name ++ " to run: " ++ errString e)))
      false true none
  | .timedOut =>
    finishArmed request build env.cancelEnv remaining
      (.error (newTimeoutError ("timed out waiting for build " ++ build.name ++ " to start after " ++ durationString timeout)))
      false true none
  | .observed latest =>
    if latest.status.phase = buildPhaseError then
      finishArmed request build env.cancelEnv remaining
        (.error (newBadRequest ("build " ++ build.name ++ " encountered an error: " ++ noBuildLogsMessage)))
        false false none
    else if latest.status.phase = buildPhaseFailed then
      finishArmed request build env.cancelEnv remaining
        (.error (newBadRequest ("build " ++ build.name ++ " failed: " ++ build.status.reason ++ ": " ++ build.status.message)))
        false false none
    else if latest.status.phase = buildPhaseCancelled then
      finishArmed request build env.cancelEnv remaining
        (.error (newBadRequest ("build " ++ build.name ++ " was cancelled: " ++ noBuildLogsMessage)))
        false false none
    else if latest.status.phase ≠ buildPhaseRunning then
      finishArmed request build env.cancelEnv remaining
        (.error (newBadRequest ("cannot upload file to build " ++ build.name ++ " with status " ++ latest.status.phase)))
        false true none
    else
      let container :=
        if build.strategy.customStrategy then customBuild else gitCloneContainer
      match env.restClientErr with
      | some e =>
        finishArmed request build env.cancelEnv remaining (.error e) true true (some container)
      | none =>
        match env.executorErr with
        | some e =>
          finishArmed request build env.cancelEnv remaining (.error e) true true (some container)
        | none =>
          match env.streamErr with
          | some e =>
            finishArmed request build env.cancelEnv remaining (.error (KError.internal e)) true true (some container)
          | none =>
            finishArmed request build env.cancelEnv remaining (.ok latest) true false (some container)

/-- Source `binaryInstantiateHandler.handle`: validate, build the request, run the
launch poll (propagating its error without arming the guard), compute the
remaining budget, register the cancellation guard, then wait and stream. -/
def handle (timeout : Nat) (name : String)
    (options : BinaryBuildRequestOptions) (env : HandlerEnv) : HandleOutput :=
  let request := binaryBuildRequest name options
  match env.validateErr with
  | some e => finishUnarmed request (.error e)
  | none =>
    match launchLoop (timeout / launchPollInterval) env.launchTicks with
    | .failure e => finishUnarmed request (.error e)
    | .timeout => finishUnarmed request (.error .pollTimeout)
    | .success build k =>
      let elapsed := k * launchPollInterval
      let remaining := timeout - elapsed
      afterLaunch timeout request build remaining env

/-- The HTTP-level outcome produced by `ServeHTTP` from a `handle` run. -/
inductive HTTPOutcome where
  | object (status : Nat) (b : Build) : HTTPOutcome
  | error (e : KError) : HTTPOutcome
deriving Repr, DecidableEq

/-- Source `binaryInstantiateHandler.ServeHTTP`: an error goes to
`responder.Error`, a build to `responder.Object(http.StatusCreated, _)`. -/
def serveHTTP (timeout : Nat) (name : String)
    (options : BinaryBuildRequestOptions) (env : HandlerEnv) : HTTPOutcome :=
  match (handle timeout name options env).result with
  | .error e => .error e
  | .ok b => .object 201 b

/-! Concrete inputs used by witnesses and counterexamples. -/

/-- Status of a freshly created build (phase `New`, empty reason/message). -/
def exStatusNew : BuildStatus :=
  { phase := "New", reason := "", message := "", cancelled := false }

/-- The build returned by the generator in the concrete runs. -/
def exBuild : Build :=
  { name := "mybuild", namespaceName := "ns", resourceVersion := "1",
    strategy := { customStrategy := false }, status := exStatusNew }

/-- The latest snapshot once the build is running. -/
def exLatestRunning : Build :=
  { exBuild with status := { exStatusNew with phase := "Running" } }

/-- A latest snapshot that reached phase `Failed` with a recorded reason and
message. -/
def exLatestFailed : Build :=
  { name := "mybuild", namespaceName := "ns", resourceVersion := "2",
    strategy := { customStrategy := false },
    status := { phase := "Failed", reason := "BuildError", message := "boom",
                cancelled := false } }

/-- Binary request options with no commit metadata. -/
def exOpts : BinaryBuildRequestOptions :=
  { name := "mybuild", asFile := "", commit := "", message := "",
    authorName := "", authorEmail := "", committerName := "",
    committerEmail := "" }

/-- A cancellation environment where the first update simply succeeds. -/
def exCancelEnv : CancelEnv :=
  { convertErr := false, firstUpdateErr := none,
    ticks := [{ updateErr := none, getResult := .ok exBuild }] }

/-- A not-found error on an image stream tag (the retryable launch error). -/
def exNotFoundISTag : KError :=
  .api .notFound "imagestreamtags" "imagestreamtags not found"

/-- A not-found error on a different resource kind. -/
def exNotFoundPod : KError := .api .notFound "pods" "pods not found"

/-- A conflict error from the build store. -/
def exConflictErr : KError := .api .conflict "builds" "conflict"

/-- A streaming failure. -/
def exStreamErr : KError := .api .other "" "connection reset by peer"

/-- Environment of a run whose build reaches `Running` and whose stream
succeeds. -/
def envRunOk : HandlerEnv :=
  { validateErr := none, launchTicks := [.ok exBuild],
    wait := .observed exLatestRunning, restClientErr := none,
    executorErr := none, streamErr := none, cancelEnv := exCancelEnv }

/-- Environment of a run that reaches Running but whose stream fails. -/
def envStreamFail : HandlerEnv := { envRunOk with streamErr := some exStreamErr }

/-- A cancellation environment whose conversion step fails. -/
def exCancelEnvConvertFail : CancelEnv :=
  { convertErr := true, firstUpdateErr := none, ticks := [] }

/-- A poll tick whose update conflicts and whose re-fetch succeeds. -/
def exConflictTick : CancelTick :=
  { updateErr := some exConflictErr, getResult := .ok exBuild }

/-- Modelled from the spec (§4.4 disarm points): the exits on which the
cancellation guard is disarmed — a terminal phase (`Error`, `Failed`,
`Cancelled`) observed by the wait, or successful completion of streaming. -/
def specDisarmExit (env : HandlerEnv) : Bool :=
  match env.wait with
  | .observed latest =>
    if latest.status.phase = buildPhaseError ∨
        latest.status.phase = buildPhaseFailed ∨
        latest.status.phase = buildPhaseCancelled then true
    else if latest.status.phase = buildPhaseRunning ∧ env.restClientErr = none ∧
        env.executorErr = none ∧ env.streamErr = none then true
    else false
  | _ => false

/-- Environment of a run whose launch fails at once with a non-retryable
error. -/
def envLaunchFail : HandlerEnv :=
  { validateErr := none, launchTicks := [.err exNotFoundPod], wait := .timedOut,
    restClientErr := none, executorErr := none, streamErr := none,
    cancelEnv := exCancelEnv }

/-- Environment of a run whose wait observes the build in phase Failed with
a recorded reason and message differing from the launch snapshot's. -/
def envPhaseFailed : HandlerEnv :=
  { validateErr := none, launchTicks := [.ok exBuild],
    wait := .observed exLatestFailed, restClientErr := none,
    executorErr := none, streamErr := none, cancelEnv := exCancelEnv }

/-- Environment of a run whose launch consumes two poll ticks (one
retryable miss, then success) and whose wait then times out. -/
def envWaitTimeout : HandlerEnv :=
  { validateErr := none, launchTicks := [.err exNotFoundISTag, .ok exBuild],
    wait := .timedOut, restClientErr := none, executorErr := none,
    streamErr := none, cancelEnv := exCancelEnv }

/-! Basic unfolding lemmas for `handle`. -/

theorem handle_validate_some (t : Nat) (n : String) (o : BinaryBuildRequestOptions)
    (env : HandlerEnv) (e : KError) (hv : env.validateErr = some e) :
    handle t n o env = finishUnarmed (binaryBuildRequest n o) (.error e) := by
  unfold handle
  rw [hv]

theorem handle_launch_failure (t : Nat) (n : String) (o : BinaryBuildRequestOptions)
    (env : HandlerEnv) (e : KError) (hv : env.validateErr = none)
    (hl : launchLoop (t / launchPollInterval) env.launchTicks = .failure e) :
    handle t n o env = finishUnarmed (binaryBuildRequest n o) (.error e) := by
  unfold handle
  rw [hv, hl]

theorem handle_launch_timeout (t : Nat) (n : String) (o : BinaryBuildRequestOptions)
    (env : HandlerEnv) (hv : env.validateErr = none)
    (hl : launchLoop (t / launchPollInterval) env.launchTicks = .timeout) :
    handle t n o env = finishUnarmed (binaryBuildRequest n o) (.error .pollTimeout) := by
  unfold handle
  rw [hv, hl]

theorem handle_launch_success (t : Nat) (n : String) (o : BinaryBuildRequestOptions)
    (env : HandlerEnv) (b : Build) (k : Nat) (hv : env.validateErr = none)
    (hl : launchLoop (t / launchPollInterval) env.launchTicks = .success b k) :
    handle t n o env =
      afterLaunch t (binaryBuildRequest n o) b (t - k * launchPollInterval) env := by
  unfold handle
  rw [hv, hl]

theorem afterLaunch_cancelEnv_irrel (t : Nat) (req : BuildRequest) (b : Build)
    (r : Nat) (env : HandlerEnv) (c : CancelEnv) :
    (afterLaunch t req b r { env with cancelEnv := c }).result =
      (afterLaunch t req b r env).result := by
  rcases env with ⟨v, lt, w, rc, ex, st, ce⟩
  cases w with
  | deleted => rfl
  | failed e => rfl
  | timedOut => rfl
  | observed latest =>
    by_cases h1 : latest.status.phase = buildPhaseError
    · simp [afterLaunch, h1, finishArmed]
    · by_cases h2 : latest.status.phase = buildPhaseFailed
      · simp [afterLaunch, h1, h2, finishArmed, buildPhaseError, buildPhaseFailed]
      · by_cases h3 : latest.status.phase = buildPhaseCancelled
        · simp [afterLaunch, h1, h2, h3, finishArmed, buildPhaseError,
            buildPhaseFailed, buildPhaseCancelled]
        · by_cases h4 : latest.status.phase = buildPhaseRunning
          · cases rc <;> cases ex <;> cases st <;>
              simp [afterLaunch, h1, h2, h3, h4, finishArmed, buildPhaseRunning,
                buildPhaseError, buildPhaseFailed, buildPhaseCancelled]
          · simp [afterLaunch, h1, h2, h3, h4, finishArmed]

theorem handle_cancelEnv_irrel (t : Nat) (n : String) (o : BinaryBuildRequestOptions)
    (env : HandlerEnv) (c : CancelEnv) :
    (handle t n o { env with cancelEnv := c }).result = (handle t n o env).result := by
  rcases env with ⟨v, lt, w, rc, ex, st, ce⟩
  cases v with
  | some e => rfl
  | none =>
    unfold handle
    dsimp only
    cases hl : launchLoop (t / launchPollInterval) lt with
    | failure e => rfl
    | timeout => rfl
    | success b k =>
      exact afterLaunch_cancelEnv_irrel t (binaryBuildRequest n o) b
        (t - k * launchPollInterval) ⟨none, lt, w, rc, ex, st, ce⟩ c

/-! Lemmas about the cancellation poll loop. -/

@[simp]
theorem setCancelled_cancelled (b : Build) :
    (setCancelled b).status.cancelled = true := rfl

theorem cancelPollLoop_length (fuel : Nat) :
    ∀ vb ticks, (cancelPollLoop vb fuel ticks).length ≤ 2 * fuel := by
  induction fuel with
  | zero => intro vb ticks; simp [cancelPollLoop]
  | succ m ih =>
    intro vb ticks
    cases ticks with
    | nil => simp [cancelPollLoop]
    | cons t rest =>
      cases hu : t.updateErr with
      | none =>
        simp only [cancelPollLoop, hu, List.length_singleton]
        omega
      | some e =>
        by_cases hc : isConflict e = true
        · cases hg : t.getResult with
          | ok b2 =>
            have h := ih b2 rest
            simp only [cancelPollLoop, hu, hc, if_true, hg, List.length_cons]
            omega
          | error e2 =>
            simp only [cancelPollLoop, hu, hc, if_true, hg, List.length_cons,
              List.length_nil]
            omega
        · simp only [cancelPollLoop, hu, if_neg hc, List.length_singleton]
          omega

theorem cancelPollLoop_update_cancelled (fuel : Nat) :
    ∀ vb ticks b2, CancelOp.update b2 ∈ cancelPollLoop vb fuel ticks →
      b2.status.cancelled = true := by
  induction fuel with
  | zero => intro vb ticks b2 h; simp [cancelPollLoop] at h
  | succ m ih =>
    intro vb ticks b2 h
    cases ticks with
    | nil => simp [cancelPollLoop] at h
    | cons t rest =>
      cases hu : t.updateErr with
      | none =>
        simp [cancelPollLoop, hu] at h
        simp [h]
      | some e =>
        by_cases hc : isConflict e = true
        · cases hg : t.getResult with
          | ok b3 =>
            simp [cancelPollLoop, hu, hc, hg] at h
            rcases h with h | h
            · simp [h]
            · exact ih b3 rest b2 h
          | error e2 =>
            simp [cancelPollLoop, hu, hc, hg] at h
            simp [h]
        · simp [cancelPollLoop, hu, hc] at h
          simp [h]

theorem cancelBuild_length (b : Build) (env : CancelEnv) :
    (cancelBuild b env).length ≤ 1 + 2 * maxCancelPolls := by
  unfold cancelBuild
  by_cases hc : env.convertErr
  · simp [hc]
  · have h := cancelPollLoop_length maxCancelPolls (setCancelled b) env.ticks
    simp [hc]
    omega

theorem cancelBuild_update_cancelled (b : Build) (env : CancelEnv) (b2 : Build)
    (h : CancelOp.update b2 ∈ cancelBuild b env) : b2.status.cancelled = true := by
  unfold cancelBuild at h
  by_cases hc : env.convertErr
  · simp [hc] at h
  · simp [hc] at h
    rcases h with h | h
    · simp [h]
    · exact cancelPollLoop_update_cancelled maxCancelPolls (setCancelled b) env.ticks b2 h

/-! Branch lemmas for `afterLaunch`, one per exit of the phase switch. -/

theorem afterLaunch_deleted (t : Nat) (req : BuildRequest) (b : Build) (r : Nat)
    (v : Option KError) (lt : List LaunchTick) (rc ex st : Option KError) (ce : CancelEnv) :
    afterLaunch t req b r ⟨v, lt, .deleted, rc, ex, st, ce⟩ =
      finishArmed req b ce r
        (.error (newBadRequest ("build " ++ b.name ++ " was deleted before it started: " ++ noBuildLogsMessage)))
        false true none := rfl

theorem afterLaunch_waitFailed (t : Nat) (req : BuildRequest) (b : Build) (r : Nat)
    (v : Option KError) (lt : List LaunchTick) (e : KError)
    (rc ex st : Option KError) (ce : CancelEnv) :
    afterLaunch t req b r ⟨v, lt, .failed e, rc, ex, st, ce⟩ =
      finishArmed req b ce r
        (.error (newBadRequest ("unable to wait for build " ++ b.name ++ " to run: " ++ errString e)))
        false true none := rfl

theorem afterLaunch_timedOut (t : Nat) (req : BuildRequest) (b : Build) (r : Nat)
    (v : Option KError) (lt : List LaunchTick) (rc ex st : Option KError) (ce : CancelEnv) :
    afterLaunch t req b r ⟨v, lt, .timedOut, rc, ex, st, ce⟩ =
      finishArmed req b ce r
        (.error (newTimeoutError ("timed out waiting for build " ++ b.name ++ " to start after " ++ durationString t)))
        false true none := rfl

theorem afterLaunch_phaseError (t : Nat) (req : BuildRequest) (b : Build) (r : Nat)
    (v : Option KError) (lt : List LaunchTick) (latest : Build)
    (rc ex st : Option KError) (ce : CancelEnv)
    (h1 : latest.status.phase = buildPhaseError) :
    afterLaunch t req b r ⟨v, lt, .observed latest, rc, ex, st, ce⟩ =
      finishArmed req b ce r
        (.error (newBadRequest ("build " ++ b.name ++ " encountered an error: " ++ noBuildLogsMessage)))
        false false none := by
  unfold afterLaunch
  dsimp only
  rw [if_pos h1]

theorem afterLaunch_phaseFailed (t : Nat) (req : BuildRequest) (b : Build) (r : Nat)
    (v : Option KError) (lt : List LaunchTick) (latest : Build)
    (rc ex st : Option KError) (ce : CancelEnv)
    (h2 : latest.status.phase = buildPhaseFailed) :
    afterLaunch t req b r ⟨v, lt, .observed latest, rc, ex, st, ce⟩ =
      finishArmed req b ce r
        (.error (newBadRequest ("build " ++ b.name ++ " failed: " ++ b.status.reason ++ ": " ++ b.status.message)))
        false false none := by
  have h1 : latest.status.phase ≠ buildPhaseError := by
    rw [h2]; simp [buildPhaseFailed, buildPhaseError]
  unfold afterLaunch
  dsimp only
  rw [if_neg h1, if_pos h2]

theorem afterLaunch_phaseCancelled (t : Nat) (req : BuildRequest) (b : Build) (r : Nat)
    (v : Option KError) (lt : List LaunchTick) (latest : Build)
    (rc ex st : Option KError) (ce : CancelEnv)
    (h3 : latest.status.phase = buildPhaseCancelled) :
    afterLaunch t req b r ⟨v, lt, .observed latest, rc, ex, st, ce⟩ =
      finishArmed req b ce r
        (.error (newBadRequest ("build " ++ b.name ++ " was cancelled: " ++ noBuildLogsMessage)))
        false false none := by
  have h1 : latest.status.phase ≠ buildPhaseError := by
    rw [h3]; simp [buildPhaseCancelled, buildPhaseError]
  have h2 : latest.status.phase ≠ buildPhaseFailed := by
    rw [h3]; simp [buildPhaseCancelled, buildPhaseFailed]
  unfold afterLaunch
  dsimp only
  rw [if_neg h1, if_neg h2, if_pos h3]

theorem afterLaunch_otherPhase (t : Nat) (req : BuildRequest) (b : Build) (r : Nat)
    (v : Option KError) (lt : List LaunchTick) (latest : Build)
    (rc ex st : Option KError) (ce : CancelEnv)
    (h1 : latest.status.phase ≠ buildPhaseError)
    (h2 : latest.status.phase ≠ buildPhaseFailed)
    (h3 : latest.status.phase ≠ buildPhaseCancelled)
    (h4 : latest.status.phase ≠ buildPhaseRunning) :
    afterLaunch t req b r ⟨v, lt, .observed latest, rc, ex, st, ce⟩ =
      finishArmed req b ce r
        (.error (newBadRequest ("cannot upload file to build " ++ b.name ++ " with status " ++ latest.status.phase)))
        false true none := by
  unfold afterLaunch
  dsimp only
  rw [if_neg h1, if_neg h2, if_neg h3, if_pos h4]

theorem afterLaunch_running (t : Nat) (req : BuildRequest) (b : Build) (r : Nat)
    (v : Option KError) (lt : List LaunchTick) (latest : Build)
    (rc ex st : Option KError) (ce : CancelEnv)
    (h4 : latest.status.phase = buildPhaseRunning) :
    afterLaunch t req b r ⟨v, lt, .observed latest, rc, ex, st, ce⟩ =
      (let container :=
        if b.strategy.customStrategy then customBuild else gitCloneContainer
      match rc with
      | some e => finishArmed req b ce r (.error e) true true (some container)
      | none =>
        match ex with
        | some e => finishArmed req b ce r (.error e) true true (some container)
        | none =>
          match st with
          | some e =>
            finishArmed req b ce r (.error (KError.internal e)) true true (some container)
          | none => finishArmed req b ce r (.ok latest) true false (some container)) := by
  have h1 : latest.status.phase ≠ buildPhaseError := by
    rw [h4]; simp [buildPhaseRunning, buildPhaseError]
  have h2 : latest.status.phase ≠ buildPhaseFailed := by
    rw [h4]; simp [buildPhaseRunning, buildPhaseFailed]
  have h3 : latest.status.phase ≠ buildPhaseCancelled := by
    rw [h4]; simp [buildPhaseRunning, buildPhaseCancelled]
  unfold afterLaunch
  dsimp only
  rw [if_neg h1, if_neg h2, if_neg h3, if_neg (not_not_intro h4)]

/-- A nonempty string has positive length. -/
theorem string_length_pos (s : String) (h : s ≠ "") : 0 < s.length := by
  cases s with
  | mk data =>
    cases data with
    | nil => exact absurd rfl h
    | cons c cs => simp [String.length]

theorem afterLaunch_waitBudget (t : Nat) (req : BuildRequest) (b : Build) (r : Nat)
    (env : HandlerEnv) : (afterLaunch t req b r env).waitBudget = some r := by
  rcases env with ⟨v, lt, w, rc, ex, st, ce⟩
  cases w with
  | deleted => rfl
  | failed e => rfl
  | timedOut => rfl
  | observed latest =>
    by_cases h1 : latest.status.phase = buildPhaseError
    · simp [afterLaunch, h1, finishArmed]
    · by_cases h2 : latest.status.phase = buildPhaseFailed
      · simp [afterLaunch, h1, h2, finishArmed, buildPhaseError, buildPhaseFailed]
      · by_cases h3 : latest.status.phase = buildPhaseCancelled
        · simp [afterLaunch, h1, h2, h3, finishArmed, buildPhaseError,
            buildPhaseFailed, buildPhaseCancelled]
        · by_cases h4 : latest.status.phase = buildPhaseRunning
          · cases rc <;> cases ex <;> cases st <;>
              simp [afterLaunch, h1, h2, h3, h4, finishArmed, buildPhaseRunning,
                buildPhaseError, buildPhaseFailed, buildPhaseCancelled]
          · simp [afterLaunch, h1, h2, h3, h4, finishArmed]

theorem afterLaunch_guardArmed (t : Nat) (req : BuildRequest) (b : Build) (r : Nat)
    (env : HandlerEnv) : (afterLaunch t req b r env).guardArmed = true := by
  rcases env with ⟨v, lt, w, rc, ex, st, ce⟩
  cases w with
  | deleted => rfl
  | failed e => rfl
  | timedOut => rfl
  | observed latest =>
    by_cases h1 : latest.status.phase = buildPhaseError
    · simp [afterLaunch, h1, finishArmed]
    · by_cases h2 : latest.status.phase = buildPhaseFailed
      · simp [afterLaunch, h1, h2, finishArmed, buildPhaseError, buildPhaseFailed]
      · by_cases h3 : latest.status.phase = buildPhaseCancelled
        · simp [afterLaunch, h1, h2, h3, finishArmed, buildPhaseError,
            buildPhaseFailed, buildPhaseCancelled]
        · by_cases h4 : latest.status.phase = buildPhaseRunning
          · cases rc <;> cases ex <;> cases st <;>
              simp [afterLaunch, h1, h2, h3, h4, finishArmed, buildPhaseRunning,
                buildPhaseError, buildPhaseFailed, buildPhaseCancelled]
          · simp [afterLaunch, h1, h2, h3, h4, finishArmed]

/-! Claim theorems. -/

/-- C2: the launch loop polls at a fixed 1-second interval bounded by the
overall timeout; an instantiation failure is absorbed and retried if and
only if it is a not-found error whose resource kind is exactly
`imagestreamtags`; any other error — including a not-found for another kind
— terminates the loop at its first occurrence and is propagated to the
caller; a successful instantiation stops the loop yielding the created
build. -/
theorem launch_retry_policy :
    launchPollInterval = 1000 ∧
    (∀ e, retryableLaunchError e = true ↔
      isNotFound e = true ∧ statusKind e = "imagestreamtags") ∧
    (∀ fuel e rest, retryableLaunchError e = false →
      launchLoop (fuel + 1) (.err e :: rest) = .failure e) ∧
    (∀ fuel e rest, retryableLaunchError e = true →
      launchLoop (fuel + 1) (.err e :: rest) = bumpAttempt (launchLoop fuel rest)) ∧
    (∀ fuel b rest, launchLoop (fuel + 1) (.ok b :: rest) = .success b 1) ∧
    (∀ t nm o env e, env.validateErr = none →
      launchLoop (t / launchPollInterval) env.launchTicks = .failure e →
      (handle t nm o env).result = .error e) := by
  refine ⟨rfl, ?_, ?_, ?_, ?_, ?_⟩
  · intro e
    simp [retryableLaunchError, Bool.and_eq_true, beq_iff_eq]
  · intro fuel e rest h
    simp [launchLoop, h]
  · intro fuel e rest h
    simp [launchLoop, h]
  · intro fuel b rest
    rfl
  · intro t nm o env e hv hl
    rw [handle_launch_failure t nm o env e hv hl]
    rfl

/-- Witness for C2: a non-retryable not-found error stops the loop at once,
a retryable one lets it continue, and a launch failure is the handler's
result. -/
theorem launch_retry_policy_witness :
    launchLoop (0 + 1) [.err exNotFoundPod] = .failure exNotFoundPod ∧
    launchLoop (1 + 1) [.err exNotFoundISTag, .ok exBuild] =
      bumpAttempt (launchLoop 1 [.ok exBuild]) ∧
    (handle defaultTimeout "mybuild" exOpts
      { validateErr := none, launchTicks := [.err exNotFoundPod],
        wait := .timedOut, restClientErr := none, executorErr := none,
        streamErr := none, cancelEnv := exCancelEnv }).result =
      .error exNotFoundPod :=
  ⟨launch_retry_policy.2.2.1 0 exNotFoundPod [] (by decide),
   launch_retry_policy.2.2.2.1 1 exNotFoundISTag [.ok exBuild] (by decide),
   launch_retry_policy.2.2.2.2.2 defaultTimeout "mybuild" exOpts _ exNotFoundPod rfl
     (by decide)⟩

/-- C8: launch and wait share one deadline — the duration handed to the
phase wait is the configured overall timeout minus the time the launch loop
consumed (one poll interval per generator invocation). -/
theorem wait_receives_remaining_budget (t : Nat) (nm : String)
    (o : BinaryBuildRequestOptions) (env : HandlerEnv) (b : Build) (k : Nat)
    (hv : env.validateErr = none)
    (hl : launchLoop (t / launchPollInterval) env.launchTicks = .success b k) :
    (handle t nm o env).waitBudget = some (t - k * launchPollInterval) := by
  rw [handle_launch_success t nm o env b k hv hl]
  exact afterLaunch_waitBudget t (binaryBuildRequest nm o) b
    (t - k * launchPollInterval) env

/-- Witness for C8: one launch attempt consumes one interval, so the wait
receives the timeout minus one interval. -/
theorem wait_receives_remaining_budget_witness :
    (handle defaultTimeout "mybuild" exOpts envRunOk).waitBudget = some 299000 :=
  wait_receives_remaining_budget defaultTimeout "mybuild" exOpts envRunOk
    exBuild 1 rfl (by decide)

/-- C9: when the streaming copy completes without error, cancellation is
disarmed (no cancellation update is issued), the latest build snapshot
observed by the phase wait is the result, and the HTTP outcome is 201
Created with that snapshot. -/
theorem stream_success_created (t : Nat) (nm : String)
    (o : BinaryBuildRequestOptions) (env : HandlerEnv) (b : Build) (k : Nat)
    (latest : Build) (hv : env.validateErr = none)
    (hl : launchLoop (t / launchPollInterval) env.launchTicks = .success b k)
    (hw : env.wait = .observed latest)
    (hp : latest.status.phase = buildPhaseRunning)
    (hrc : env.restClientErr = none) (hex : env.executorErr = none)
    (hst : env.streamErr = none) :
    (handle t nm o env).result = .ok latest ∧
    (handle t nm o env).cancelIssued = false ∧
    (handle t nm o env).cancelOps = [] ∧
    serveHTTP t nm o env = .object 201 latest := by
  have hh := handle_launch_success t nm o env b k hv hl
  rcases env with ⟨v, lt, w, rc, ex, st, ce⟩
  dsimp only at hw hrc hex hst
  subst hw hrc hex hst
  rw [afterLaunch_running t (binaryBuildRequest nm o) b
    (t - k * launchPollInterval) v lt latest none none none ce hp] at hh
  rw [hh]
  refine ⟨rfl, rfl, rfl, ?_⟩
  unfold serveHTTP
  rw [hh]
  rfl

/-- Witness for C9: a concrete run that reaches Running and streams
successfully yields 201 Created with the latest snapshot and no
cancellation. -/
theorem stream_success_created_witness :
    (handle defaultTimeout "mybuild" exOpts envRunOk).result = .ok exLatestRunning ∧
    (handle defaultTimeout "mybuild" exOpts envRunOk).cancelIssued = false ∧
    (handle defaultTimeout "mybuild" exOpts envRunOk).cancelOps = [] ∧
    serveHTTP defaultTimeout "mybuild" exOpts envRunOk = .object 201 exLatestRunning :=
  stream_success_created defaultTimeout "mybuild" exOpts envRunOk exBuild 1
    exLatestRunning rfl (by decide) rfl rfl rfl rfl rfl

/-- C10: the non-binary `Create` path defaults a nil trigger-cause list to
a single manual-trigger cause before instantiation; the binary path never
sets a trigger cause, and attaches a source revision if and only if the
commit id option is non-empty, discarding the author/committer/message
options otherwise. -/
theorem trigger_and_revision_construction :
    (∀ r, r.triggeredBy = none →
      instantiateCreate none none r =
        .ok { r with triggeredBy := some [{ message := buildTriggerCauseManualMsg }] }) ∧
    (∀ r tb, r.triggeredBy = some tb → instantiateCreate none none r = .ok r) ∧
    (∀ nm o, (binaryBuildRequest nm o).triggeredBy = none) ∧
    (∀ nm o, o.commit = "" → (binaryBuildRequest nm o).revision = none) ∧
    (∀ nm o, o.commit ≠ "" →
      (binaryBuildRequest nm o).revision = some { git := some {
        committer := { name := o.committerName, email := o.committerEmail }
        author := { name := o.authorName, email := o.authorEmail }
        message := o.message
        commit := o.commit } }) := by
  refine ⟨?_, ?_, ?_, ?_, ?_⟩
  · intro r h
    simp [instantiateCreate, defaultTriggeredBy, h]
  · intro r tb h
    simp [instantiateCreate, defaultTriggeredBy, h]
  · intro nm o
    rfl
  · intro nm o h
    have hlen : ¬ 0 < o.commit.length := by rw [h]; decide
    simp [binaryBuildRequest, hlen]
  · intro nm o h
    have hlen := string_length_pos o.commit h
    simp [binaryBuildRequest, hlen]

/-- Witness for C10: a nil trigger list is defaulted, and empty commit
options yield no revision. -/
theorem trigger_and_revision_construction_witness :
    instantiateCreate none none
      { name := "cfg", revision := none, binary := none, triggeredBy := none } =
      .ok { name := "cfg", revision := none, binary := none,
            triggeredBy := some [{ message := buildTriggerCauseManualMsg }] } ∧
    (binaryBuildRequest "mybuild" exOpts).revision = none ∧
    (binaryBuildRequest "mybuild" exOpts).triggeredBy = none :=
  ⟨trigger_and_revision_construction.1 _ rfl,
   trigger_and_revision_construction.2.2.2.1 "mybuild" exOpts rfl,
   trigger_and_revision_construction.2.2.1 "mybuild" exOpts⟩

/-- C3: when the streaming copy fails, the caller's error is that streaming
error wrapped as an internal error; the best-effort cancellation runs on
that exit, and no outcome of the cancellation environment ever changes the
returned error. -/
theorem stream_failure_internal_error (t : Nat) (nm : String)
    (o : BinaryBuildRequestOptions) (env : HandlerEnv) (b : Build) (k : Nat)
    (latest : Build) (e : KError) (hv : env.validateErr = none)
    (hl : launchLoop (t / launchPollInterval) env.launchTicks = .success b k)
    (hw : env.wait = .observed latest)
    (hp : latest.status.phase = buildPhaseRunning)
    (hrc : env.restClientErr = none) (hex : env.executorErr = none)
    (hst : env.streamErr = some e) :
    (handle t nm o env).result = .error (KError.internal e) ∧
    (handle t nm o env).cancelIssued = true ∧
    (∀ c, (handle t nm o { env with cancelEnv := c }).result =
      .error (KError.internal e)) := by
  have hirr := fun c => handle_cancelEnv_irrel t nm o env c
  have hh := handle_launch_success t nm o env b k hv hl
  rcases env with ⟨v, lt, w, rc, ex, st, ce⟩
  dsimp only at hw hrc hex hst
  subst hw hrc hex hst
  rw [afterLaunch_running t (binaryBuildRequest nm o) b
    (t - k * launchPollInterval) v lt latest none none (some e) ce hp] at hh
  refine ⟨?_, ?_, ?_⟩
  · rw [hh]
    rfl
  · rw [hh]
    rfl
  · intro c
    rw [hirr c, hh]
    rfl

/-- Witness for C3: a concrete stream failure surfaces as the wrapped
internal error for two different cancellation environments. -/
theorem stream_failure_internal_error_witness :
    (handle defaultTimeout "mybuild" exOpts envStreamFail).result =
      .error (KError.internal exStreamErr) ∧
    (handle defaultTimeout "mybuild" exOpts
      { envStreamFail with cancelEnv := exCancelEnvConvertFail }).result =
      .error (KError.internal exStreamErr) :=
  ⟨(stream_failure_internal_error defaultTimeout "mybuild" exOpts envStreamFail
      exBuild 1 exLatestRunning exStreamErr rfl (by decide) rfl rfl rfl rfl
      rfl).1,
   (stream_failure_internal_error defaultTimeout "mybuild" exOpts envStreamFail
      exBuild 1 exLatestRunning exStreamErr rfl (by decide) rfl rfl rfl rfl
      rfl).2.2 exCancelEnvConvertFail⟩

/-- C1: after a successful launch, the flow reaches the attach-and-stream
stage if and only if the wait observed phase exactly `Running`; for an
observed `Error`, `Failed` or `Cancelled` phase the cancellation flag is
cleared and the flow exits with an error; for every other non-Running
outcome of the wait (deletion, observation error, timeout, or an observed
unknown or not-yet-running phase) the flow exits with an error while
cancellation remains armed and is attempted. -/
theorem phase_gating (t : Nat) (nm : String) (o : BinaryBuildRequestOptions)
    (env : HandlerEnv) (b : Build) (k : Nat)
    (hv : env.validateErr = none)
    (hl : launchLoop (t / launchPollInterval) env.launchTicks = .success b k) :
    ((handle t nm o env).uploadAttempted = true ↔
      ∃ latest, env.wait = .observed latest ∧
        latest.status.phase = buildPhaseRunning) ∧
    (∀ latest, env.wait = .observed latest →
      latest.status.phase = buildPhaseError ∨ latest.status.phase = buildPhaseFailed ∨
        latest.status.phase = buildPhaseCancelled →
      (handle t nm o env).cancelIssued = false ∧
        ∃ e, (handle t nm o env).result = .error e) ∧
    ((env.wait = .deleted ∨ (∃ e2, env.wait = .failed e2) ∨ env.wait = .timedOut ∨
      (∃ latest, env.wait = .observed latest ∧
        latest.status.phase ≠ buildPhaseRunning ∧
        latest.status.phase ≠ buildPhaseError ∧
        latest.status.phase ≠ buildPhaseFailed ∧
        latest.status.phase ≠ buildPhaseCancelled)) →
      (∃ e, (handle t nm o env).result = .error e) ∧
        (handle t nm o env).cancelIssued = true) := by
  have hh := handle_launch_success t nm o env b k hv hl
  rcases env with ⟨v, lt, w, rc, ex, st, ce⟩
  dsimp only
  rw [hh]
  cases w with
  | deleted =>
    rw [afterLaunch_deleted]
    refine ⟨by simp [finishArmed], ?_, ?_⟩
    · intro latest h hph
      cases h
    · intro _
      exact ⟨⟨_, rfl⟩, rfl⟩
  | failed e2 =>
    rw [afterLaunch_waitFailed]
    refine ⟨by simp [finishArmed], ?_, ?_⟩
    · intro latest h hph
      cases h
    · intro _
      exact ⟨⟨_, rfl⟩, rfl⟩
  | timedOut =>
    rw [afterLaunch_timedOut]
    refine ⟨by simp [finishArmed], ?_, ?_⟩
    · intro latest h hph
      cases h
    · intro _
      exact ⟨⟨_, rfl⟩, rfl⟩
  | observed latest =>
    by_cases h1 : latest.status.phase = buildPhaseError
    · rw [afterLaunch_phaseError t (binaryBuildRequest nm o) b
        (t - k * launchPollInterval) v lt latest rc ex st ce h1]
      refine ⟨by simp [finishArmed, h1, buildPhaseError, buildPhaseRunning], ?_, ?_⟩
      · intro latest2 h hph
        exact ⟨rfl, ⟨_, rfl⟩⟩
      · rintro (h | ⟨e2, h⟩ | h | ⟨latest2, heq, hr, he, hf, hc⟩)
        · cases h
        · cases h
        · cases h
        · injection heq with heq
          subst heq
          exact absurd h1 he
    · by_cases h2 : latest.status.phase = buildPhaseFailed
      · rw [afterLaunch_phaseFailed t (binaryBuildRequest nm o) b
          (t - k * launchPollInterval) v lt latest rc ex st ce h2]
        refine ⟨by simp [finishArmed, h2, buildPhaseFailed, buildPhaseRunning], ?_, ?_⟩
        · intro latest2 h hph
          exact ⟨rfl, ⟨_, rfl⟩⟩
        · rintro (h | ⟨e2, h⟩ | h | ⟨latest2, heq, hr, he, hf, hc⟩)
          · cases h
          · cases h
          · cases h
          · injection heq with heq
            subst heq
            exact absurd h2 hf
      · by_cases h3 : latest.status.phase = buildPhaseCancelled
        · rw [afterLaunch_phaseCancelled t (binaryBuildRequest nm o) b
            (t - k * launchPollInterval) v lt latest rc ex st ce h3]
          refine ⟨by simp [finishArmed, h3, buildPhaseCancelled, buildPhaseRunning],
            ?_, ?_⟩
          · intro latest2 h hph
            exact ⟨rfl, ⟨_, rfl⟩⟩
          · rintro (h | ⟨e2, h⟩ | h | ⟨latest2, heq, hr, he, hf, hc⟩)
            · cases h
            · cases h
            · cases h
            · injection heq with heq
              subst heq
              exact absurd h3 hc
        · by_cases h4 : latest.status.phase = buildPhaseRunning
          · rw [afterLaunch_running t (binaryBuildRequest nm o) b
              (t - k * launchPollInterval) v lt latest rc ex st ce h4]
            refine ⟨?_, ?_, ?_⟩
            · cases rc <;> cases ex <;> cases st <;>
                simp [finishArmed, h4]
            · intro latest2 h hph
              injection h with h
              subst h
              rcases hph with hph | hph | hph
              · exact absurd hph h1
              · exact absurd hph h2
              · exact absurd hph h3
            · rintro (h | ⟨e2, h⟩ | h | ⟨latest2, heq, hr, he, hf, hc⟩)
              · cases h
              · cases h
              · cases h
              · injection heq with heq
                subst heq
                exact absurd h4 hr
          · rw [afterLaunch_otherPhase t (binaryBuildRequest nm o) b
              (t - k * launchPollInterval) v lt latest rc ex st ce h1 h2 h3 h4]
            refine ⟨?_, ?_, ?_⟩
            · simp only [finishArmed]
              constructor
              · intro h
                cases h
              · rintro ⟨latest2, heq, hrun⟩
                injection heq with heq
                subst heq
                exact absurd hrun h4
            · intro latest2 h hph
              injection h with h
              subst h
              rcases hph with hph | hph | hph
              · exact absurd hph h1
              · exact absurd hph h2
              · exact absurd hph h3
            · intro _
              exact ⟨⟨_, rfl⟩, rfl⟩

/-- Witness for C1: with an observed Running phase the upload stage is
reached, instantiating the gating equivalence at a concrete run. -/
theorem phase_gating_witness :
    (handle defaultTimeout "mybuild" exOpts envRunOk).uploadAttempted = true :=
  (phase_gating defaultTimeout "mybuild" exOpts envRunOk exBuild 1 rfl
    (by decide)).1.mpr ⟨exLatestRunning, rfl, rfl⟩

/-- C4: the cancellation routine first submits an update with the flag set,
then handles conflicts by re-fetch-and-retry at the fixed 500ms/30s poll
(at most `maxCancelPolls` ticks, hence a bounded operation trace); every
update it submits carries the cancellation flag; a conversion failure makes
it give up silently having done nothing; and no outcome of any of its inner
steps ever changes the handler's result. -/
theorem cancel_retry_bounded_silent :
    cancelPollInterval = 500 ∧ cancelPollDuration = 30000 ∧
    maxCancelPolls = 60 ∧
    (∀ b env, (cancelBuild b env).length ≤ 1 + 2 * maxCancelPolls) ∧
    (∀ b env b2, CancelOp.update b2 ∈ cancelBuild b env →
      b2.status.cancelled = true) ∧
    (∀ b env, env.convertErr = false →
      cancelBuild b env =
        CancelOp.update (setCancelled b) ::
          cancelPollLoop (setCancelled b) maxCancelPolls env.ticks) ∧
    (∀ vb fuel t rest e b2, t.updateErr = some e → isConflict e = true →
      t.getResult = .ok b2 →
      cancelPollLoop vb (fuel + 1) (t :: rest) =
        CancelOp.update (setCancelled vb) :: CancelOp.get ::
          cancelPollLoop b2 fuel rest) ∧
    (∀ b env, env.convertErr = true → cancelBuild b env = []) ∧
    (∀ t nm o env c,
      (handle t nm o { env with cancelEnv := c }).result =
        (handle t nm o env).result) := by
  refine ⟨rfl, rfl, rfl, cancelBuild_length, cancelBuild_update_cancelled,
    ?_, ?_, ?_, handle_cancelEnv_irrel⟩
  · intro b env h
    simp [cancelBuild, h]
  · intro vb fuel t rest e b2 hu hc hg
    simp [cancelPollLoop, hu, hc, hg]
  · intro b env h
    simp [cancelBuild, h]

/-- Witness for C4: the conflict step re-fetches and retries at a concrete
tick, the trace is bounded, and the handler result ignores the cancellation
environment on a concrete run. -/
theorem cancel_retry_bounded_silent_witness :
    cancelPollLoop exBuild (0 + 1) [exConflictTick] =
      [CancelOp.update (setCancelled exBuild), CancelOp.get] ∧
    (cancelBuild exBuild exCancelEnv).length ≤ 1 + 2 * maxCancelPolls ∧
    (handle defaultTimeout "mybuild" exOpts
      { envRunOk with cancelEnv := exCancelEnvConvertFail }).result =
      (handle defaultTimeout "mybuild" exOpts envRunOk).result := by
  refine ⟨?_, cancel_retry_bounded_silent.2.2.2.1 exBuild exCancelEnv,
    cancel_retry_bounded_silent.2.2.2.2.2.2.2.2 defaultTimeout "mybuild" exOpts
      envRunOk exCancelEnvConvertFail⟩
  have h := cancel_retry_bounded_silent.2.2.2.2.2.2.1 exBuild 0 exConflictTick []
    exConflictErr exBuild rfl rfl rfl
  rw [h]
  rfl

/-- Counterexample to C5 as stated: an exit caused by a launch failure
occurs with the guard NOT armed — no cancellation is attempted on it even
though it was never explicitly disarmed. -/
theorem guard_not_armed_at_entry_cex :
    (handle defaultTimeout "mybuild" exOpts envLaunchFail).result =
      .error exNotFoundPod ∧
    (handle defaultTimeout "mybuild" exOpts envLaunchFail).guardArmed = false ∧
    (handle defaultTimeout "mybuild" exOpts envLaunchFail).cancelIssued = false ∧
    (handle defaultTimeout "mybuild" exOpts envLaunchFail).cancelOps = [] := by
  decide

/-- C5 (amended): the cancellation guard is armed immediately after the
launch step succeeds — not at entry to the flow — so an exit caused by a
validation or launch failure (or launch timeout) occurs with the guard
unarmed and no cancellation attempted; once armed, the guard runs on
exactly the exits that are not disarm points (terminal phase observed, or
stream success). -/
theorem guard_armed_after_launch (t : Nat) (nm : String)
    (o : BinaryBuildRequestOptions) (env : HandlerEnv) :
    (∀ e, env.validateErr = some e →
      (handle t nm o env).guardArmed = false ∧
        (handle t nm o env).cancelIssued = false) ∧
    (env.validateErr = none →
      (∀ e, launchLoop (t / launchPollInterval) env.launchTicks = .failure e →
        (handle t nm o env).guardArmed = false ∧
          (handle t nm o env).cancelIssued = false) ∧
      (launchLoop (t / launchPollInterval) env.launchTicks = .timeout →
        (handle t nm o env).guardArmed = false ∧
          (handle t nm o env).cancelIssued = false) ∧
      (∀ b k, launchLoop (t / launchPollInterval) env.launchTicks = .success b k →
        (handle t nm o env).guardArmed = true ∧
          (handle t nm o env).cancelIssued = !specDisarmExit env)) := by
  constructor
  · intro e hv
    rw [handle_validate_some t nm o env e hv]
    exact ⟨rfl, rfl⟩
  · intro hv
    refine ⟨?_, ?_, ?_⟩
    · intro e hl
      rw [handle_launch_failure t nm o env e hv hl]
      exact ⟨rfl, rfl⟩
    · intro hl
      rw [handle_launch_timeout t nm o env hv hl]
      exact ⟨rfl, rfl⟩
    · intro b k hl
      have hh := handle_launch_success t nm o env b k hv hl
      rw [hh]
      refine ⟨afterLaunch_guardArmed t (binaryBuildRequest nm o) b
        (t - k * launchPollInterval) env, ?_⟩
      rcases env with ⟨v, lt, w, rc, ex, st, ce⟩
      cases w with
      | deleted => rfl
      | failed e2 => rfl
      | timedOut => rfl
      | observed latest =>
        by_cases h1 : latest.status.phase = buildPhaseError
        · rw [afterLaunch_phaseError t (binaryBuildRequest nm o) b
            (t - k * launchPollInterval) v lt latest rc ex st ce h1]
          simp [specDisarmExit, h1, finishArmed]
        · by_cases h2 : latest.status.phase = buildPhaseFailed
          · rw [afterLaunch_phaseFailed t (binaryBuildRequest nm o) b
              (t - k * launchPollInterval) v lt latest rc ex st ce h2]
            simp [specDisarmExit, h1, h2, finishArmed]
          · by_cases h3 : latest.status.phase = buildPhaseCancelled
            · rw [afterLaunch_phaseCancelled t (binaryBuildRequest nm o) b
                (t - k * launchPollInterval) v lt latest rc ex st ce h3]
              simp [specDisarmExit, h1, h2, h3, finishArmed]
            · by_cases h4 : latest.status.phase = buildPhaseRunning
              · rw [afterLaunch_running t (binaryBuildRequest nm o) b
                  (t - k * launchPollInterval) v lt latest rc ex st ce h4]
                cases rc <;> cases ex <;> cases st <;>
                  simp [specDisarmExit, h1, h2, h3, h4, finishArmed,
                    buildPhaseRunning, buildPhaseError, buildPhaseFailed,
                    buildPhaseCancelled]
              · rw [afterLaunch_otherPhase t (binaryBuildRequest nm o) b
                  (t - k * launchPollInterval) v lt latest rc ex st ce h1 h2 h3 h4]
                simp [specDisarmExit, h1, h2, h3, h4, finishArmed]

/-- Witness for C5 (amended): the guard is unarmed on a concrete launch
failure, armed on a concrete successful launch, and on the latter the
cancellation decision matches the disarm-point predicate. -/
theorem guard_armed_after_launch_witness :
    (handle defaultTimeout "mybuild" exOpts envLaunchFail).guardArmed = false ∧
    (handle defaultTimeout "mybuild" exOpts envRunOk).guardArmed = true ∧
    (handle defaultTimeout "mybuild" exOpts envRunOk).cancelIssued =
      !specDisarmExit envRunOk :=
  ⟨(((guard_armed_after_launch defaultTimeout "mybuild" exOpts envLaunchFail).2
      rfl).1 exNotFoundPod (by decide)).1,
   (((guard_armed_after_launch defaultTimeout "mybuild" exOpts envRunOk).2
      rfl).2.2 exBuild 1 (by decide)).1,
   (((guard_armed_after_launch defaultTimeout "mybuild" exOpts envRunOk).2
      rfl).2.2 exBuild 1 (by decide)).2⟩

/-- Counterexample to C6 as stated: the wait observes phase Failed with
reason `BuildError` and message `boom`, yet the rejection carries the empty
reason and message of the launch-time snapshot, not those recorded on the
build that reached Failed. -/
theorem failed_reason_from_stale_snapshot_cex :
    (handle defaultTimeout "mybuild" exOpts envPhaseFailed).result =
      .error (newBadRequest "build mybuild failed: : ") ∧
    (handle defaultTimeout "mybuild" exOpts envPhaseFailed).result ≠
      .error (newBadRequest ("build mybuild failed: " ++
        exLatestFailed.status.reason ++ ": " ++ exLatestFailed.status.message)) := by
  decide

/-- C6 (amended): when the wait observes phase Failed, the rejection's
reason and message are those of the launch-time snapshot (which may differ
from those recorded on the build that reached Failed), and cancellation is
disarmed on that path. -/
theorem failed_phase_rejection (t : Nat) (nm : String)
    (o : BinaryBuildRequestOptions) (env : HandlerEnv) (b : Build) (k : Nat)
    (latest : Build) (hv : env.validateErr = none)
    (hl : launchLoop (t / launchPollInterval) env.launchTicks = .success b k)
    (hw : env.wait = .observed latest)
    (hp : latest.status.phase = buildPhaseFailed) :
    (handle t nm o env).result = .error (newBadRequest
      ("build " ++ b.name ++ " failed: " ++ b.status.reason ++ ": " ++
        b.status.message)) ∧
    (handle t nm o env).cancelIssued = false := by
  have hh := handle_launch_success t nm o env b k hv hl
  rcases env with ⟨v, lt, w, rc, ex, st, ce⟩
  dsimp only at hw
  subst hw
  rw [afterLaunch_phaseFailed t (binaryBuildRequest nm o) b
    (t - k * launchPollInterval) v lt latest rc ex st ce hp] at hh
  rw [hh]
  exact ⟨rfl, rfl⟩

/-- Witness for C6 (amended): at the concrete Failed run the rejection is
built from the launch snapshot's (empty) reason and message. -/
theorem failed_phase_rejection_witness :
    (handle defaultTimeout "mybuild" exOpts envPhaseFailed).result =
      .error (newBadRequest ("build " ++ exBuild.name ++ " failed: " ++
        exBuild.status.reason ++ ": " ++ exBuild.status.message)) ∧
    (handle defaultTimeout "mybuild" exOpts envPhaseFailed).cancelIssued = false :=
  failed_phase_rejection defaultTimeout "mybuild" exOpts envPhaseFailed exBuild 1
    exLatestFailed rfl (by decide) rfl rfl

/-- Counterexample to C7 as stated: the launch consumed 2s of the 300s
budget, so the wait's own elapsed duration is at most its 298s budget, yet
the timeout message names the full configured 300s timeout. -/
theorem timeout_message_names_configured_cex :
    (handle defaultTimeout "mybuild" exOpts envWaitTimeout).waitBudget =
      some 298000 ∧
    (handle defaultTimeout "mybuild" exOpts envWaitTimeout).result =
      .error (newTimeoutError
        ("timed out waiting for build mybuild to start after " ++
          durationString defaultTimeout)) ∧
    (handle defaultTimeout "mybuild" exOpts envWaitTimeout).result ≠
      .error (newTimeoutError
        ("timed out waiting for build mybuild to start after " ++
          durationString 298000)) := by
  decide

/-- C7 (amended): when the wait ends without the build reaching Running and
without an observation error, the caller receives a timeout-class error
whose message names the configured overall timeout (not the elapsed
duration of the wait phase itself), and no streaming is attempted. -/
theorem wait_timeout_rejection (t : Nat) (nm : String)
    (o : BinaryBuildRequestOptions) (env : HandlerEnv) (b : Build) (k : Nat)
    (hv : env.validateErr = none)
    (hl : launchLoop (t / launchPollInterval) env.launchTicks = .success b k)
    (hw : env.wait = .timedOut) :
    (handle t nm o env).result = .error (newTimeoutError
      ("timed out waiting for build " ++ b.name ++ " to start after " ++
        durationString t)) ∧
    (handle t nm o env).uploadAttempted = false := by
  have hh := handle_launch_success t nm o env b k hv hl
  rcases env with ⟨v, lt, w, rc, ex, st, ce⟩
  dsimp only at hw
  subst hw
  rw [afterLaunch_timedOut] at hh
  rw [hh]
  exact ⟨rfl, rfl⟩

/-- Witness for C7 (amended): the concrete timed-out run produces the
timeout error naming the configured overall timeout and attempts no
upload. -/
theorem wait_timeout_rejection_witness :
    (handle defaultTimeout "mybuild" exOpts envWaitTimeout).result =
      .error (newTimeoutError
        ("timed out waiting for build " ++ exBuild.name ++ " to start after " ++
          durationString defaultTimeout)) ∧
    (handle defaultTimeout "mybuild" exOpts envWaitTimeout).uploadAttempted =
      false :=
  wait_timeout_rejection defaultTimeout "mybuild" exOpts envWaitTimeout exBuild 2
    rfl (by decide) rfl

end BuildConfigInstantiate
